import Mathlib

/-!
Verification development for the ModernOpenGL rendering core
(`src/ModernOpenGL/src/source.cpp`).

The program is a single-file OpenGL 4.5 deferred renderer.  We embed it
shallowly: every relevant OpenGL entry point becomes a constructor of a
command type `Cmd`, and each function of the source becomes a pure Lean
function that returns the list of commands it issues (plus its return
value).  Device-side behaviour that the program observes (shader link
status, framebuffer completeness) is modelled by explicit environment
records.  GL float data is modelled with `Rat` (the program only ever
passes exact constants where a claim depends on a value).
-/

namespace MGL

/-- GL object names (`GLuint`). -/
abbrev Handle := Nat

/-- glm::vec2, components as exact rationals. -/
structure Vec2 where
  x : Rat
  y : Rat

/-- glm::vec3. -/
structure Vec3 where
  x : Rat
  y : Rat
  z : Rat

/-- glm::vec4. -/
structure Vec4 where
  x : Rat
  y : Rat
  z : Rat
  w : Rat

/-- glm::quat; `glm::value_ptr` exposes the components in x, y, z, w order. -/
structure Quat where
  w : Rat
  x : Rat
  y : Rat
  z : Rat

/-- glm::mat3, stored as three columns (glm is column-major). -/
structure Mat3 where
  c0 : Vec3
  c1 : Vec3
  c2 : Vec3

/-- glm::mat4, stored as four columns (glm is column-major). -/
structure Mat4 where
  c0 : Vec4
  c1 : Vec4
  c2 : Vec4
  c3 : Vec4

/-- Shader stage kinds used by the program (`GL_VERTEX_SHADER` /
`GL_FRAGMENT_SHADER` and the corresponding stage bits). -/
inductive StageKind
  | vertex
  | fragment

/-- Index-buffer element types; `glDrawElements` receives one of these.
The source only ever passes `GL_UNSIGNED_BYTE`. -/
inductive IndexType
  | u8
  | u16
  | u32

/-- Primitive modes used by the program (`GL_TRIANGLES` only). -/
inductive DrawMode
  | triangles

/-- Framebuffer attachment points: `GL_COLOR_ATTACHMENT0 + slot` or
`GL_DEPTH_ATTACHMENT`. -/
inductive Attachment
  | color (slot : Nat)
  | depth

/-- Scalar types appearing in vertex attribute formats (`GL_FLOAT`,
`GL_INT`, `GL_UNSIGNED_INT`). -/
inductive GLScalarType
  | float
  | int
  | uint

/-- Internal texture formats used by the program. -/
inductive InternalFormat
  | rgba8
  | rgb8
  | r8
  | rg8
  | rgb16f
  | rgba16f
  | depth32

/-- External pixel formats used by the program. -/
inductive ExternalFormat
  | rgba
  | rgb
  | red
  | rg
  | depth

/-- Texture filter parameter values (`GL_LINEAR` / `GL_NEAREST`). -/
inductive TexFilter
  | linear
  | nearest

/-- `glTextureParameteri` parameter names set by `create_texture_2d`. -/
inductive TexParamName
  | minFilter
  | magFilter
  | wrapS
  | wrapT
  | wrapR

/-- `glTextureParameteri` parameter values used by the program. -/
inductive TexParamValue
  | filter (f : TexFilter)
  | repeatWrap

/-- The concrete `glProgramUniform*` entry point invoked by `set_uniform`,
together with the value it passes.  Matrix calls carry their `transpose`
argument. -/
inductive GLUniformCall
  | uniform1i (v : Int)
  | uniform1ui (v : Nat)
  | uniform1f (v : Rat)
  | uniform1d (v : Rat)
  | uniform2fv (v : Vec2)
  | uniform3fv (v : Vec3)
  | uniform4fv (v : Vec4)
  | uniform2iv (v : Int × Int)
  | uniform3iv (v : Int × Int × Int)
  | uniform4iv (v : Int × Int × Int × Int)
  | uniform2uiv (v : Nat × Nat)
  | uniform3uiv (v : Nat × Nat × Nat)
  | uniform4uiv (v : Nat × Nat × Nat × Nat)
  | uniformMatrix3fv (transpose : Bool) (v : Mat3)
  | uniformMatrix4fv (transpose : Bool) (v : Mat4)

/-- One recorded OpenGL call.  Each constructor corresponds to one GL
entry point invoked by the source file, with the arguments the source
passes. -/
inductive Cmd
  | createBuffer (name : Handle) (byteLen : Nat)
  | createVertexArray (name : Handle)
  | vertexArrayVertexBuffer (vao : Handle) (bindingindex : Nat) (vbo : Handle) (offset stride : Nat)
  | vertexArrayElementBuffer (vao : Handle) (ibo : Handle)
  | enableVertexArrayAttrib (vao : Handle) (idx : Nat)
  | vertexArrayAttribFormat (vao : Handle) (idx size : Nat) (ty : GLScalarType) (normalized : Bool) (relOffset : Nat)
  | vertexArrayAttribBinding (vao : Handle) (idx bindingindex : Nat)
  | createShaderProgram (kind : StageKind) (name : Handle)
  | programSeparable (name : Handle)
  | deleteShaderObj (name : Handle)
  | createProgramPipeline (name : Handle)
  | useProgramStages (pipeline : Handle) (kind : StageKind) (prog : Handle)
  | createTexture2D (name : Handle)
  | createTextureCubeMap (name : Handle)
  | textureStorage2D (name : Handle) (levels : Nat) (internal : InternalFormat) (w h : Nat)
  | texParameteri (name : Handle) (pname : TexParamName) (value : TexParamValue)
  | textureSubImage2D (name : Handle) (level x y w h : Nat) (fmt : ExternalFormat)
  | textureSubImage3D (name : Handle) (level face : Nat) (w h : Nat) (fmt : ExternalFormat)
  | createFramebuffer (name : Handle)
  | namedFramebufferTexture (fbo : Handle) (att : Attachment) (tex : Handle)
  | namedFramebufferDrawBuffers (fbo : Handle) (buffs : List Nat)
  | checkFramebufferStatus (fbo : Handle)
  | progUniform (call : GLUniformCall) (prog : Handle) (location : Nat)
  | viewport (x y w h : Nat)
  | clearColorFv (fbo : Handle) (drawbuffer : Nat) (value : List Rat)
  | clearDepthFv (fbo : Handle) (value : Rat)
  | bindFramebuffer (fbo : Handle)
  | bindTextureUnit (unit : Nat) (tex : Handle)
  | bindProgramPipeline (p : Handle)
  | bindVertexArray (vao : Handle)
  | drawElements (mode : DrawMode) (count : Nat) (ty : IndexType)
  | drawArrays (mode : DrawMode) (first count : Nat)
  | blitNamedFramebuffer (src dst : Handle) (srcW srcH dstW dstH : Nat)
  | swapWindow
  | deleteBuffer (name : Handle)
  | deleteTexture (name : Handle)
  | deleteProgram (name : Handle)
  | deleteProgramPipeline (name : Handle)
  | deleteVertexArray (name : Handle)
  | deleteFramebuffer (name : Handle)

/-- Errors surfaced as C++ exceptions by the source. -/
inductive GLError
  | fileNotFound (path : String)
  | incompleteFramebuffer
  | unsupportedUniformType
  | unsupportedAttribType

/-! ## Uniform binder (`set_uniform`, source lines 282-303)

`set_uniform` is a template dispatching on the static type `T` of the
value through an `if constexpr` chain.  `UniformValue` enumerates the
types that have a branch; `UniformArg` additionally has a constructor
for every other instantiation, which hits the final
`throw std::runtime_error("unsupported type")`. -/

/-- A value whose static type matches one of the `if constexpr` branches
of `set_uniform`. -/
inductive UniformValue
  | i1 (v : Int)
  | u1 (v : Nat)
  | b1 (v : Bool)
  | f1 (v : Rat)
  | d1 (v : Rat)
  | v2 (v : Vec2)
  | v3 (v : Vec3)
  | v4 (v : Vec4)
  | iv2 (v : Int × Int)
  | iv3 (v : Int × Int × Int)
  | iv4 (v : Int × Int × Int × Int)
  | uv2 (v : Nat × Nat)
  | uv3 (v : Nat × Nat × Nat)
  | uv4 (v : Nat × Nat × Nat × Nat)
  | quat (v : Quat)
  | m3 (v : Mat3)
  | m4 (v : Mat4)

/-- An argument to the `set_uniform` template: either a supported value
or a value of any other static type (named by `typeName`). -/
inductive UniformArg
  | supported (v : UniformValue)
  | unsupported (typeName : String)

/-- glm::value_ptr on a quaternion yields components in x, y, z, w order. -/
def quatValuePtr (q : Quat) : Vec4 := ⟨q.x, q.y, q.z, q.w⟩

/-- Which `glProgramUniform*` call each supported type maps to
(source lines 285-301).  `bool` goes through `glProgramUniform1ui` with
the usual C++ bool-to-unsigned conversion; `glm::quat` goes through
`glProgramUniform4fv`; both matrix calls pass `GL_FALSE` for
`transpose`. -/
def encodeUniform : UniformValue → GLUniformCall
  | .i1 v => .uniform1i v
  | .u1 v => .uniform1ui v
  | .b1 v => .uniform1ui (if v then 1 else 0)
  | .f1 v => .uniform1f v
  | .d1 v => .uniform1d v
  | .v2 v => .uniform2fv v
  | .v3 v => .uniform3fv v
  | .v4 v => .uniform4fv v
  | .iv2 v => .uniform2iv v
  | .iv3 v => .uniform3iv v
  | .iv4 v => .uniform4iv v
  | .uv2 v => .uniform2uiv v
  | .uv3 v => .uniform3uiv v
  | .uv4 v => .uniform4uiv v
  | .quat q => .uniform4fv (quatValuePtr q)
  | .m3 m => .uniformMatrix3fv false m
  | .m4 m => .uniformMatrix4fv false m

/-- `set_uniform(shader, location, value)`: one `glProgramUniform*` call
for a supported type, `throw std::runtime_error("unsupported type")`
otherwise. -/
def set_uniform (shader : Handle) (location : Nat) : UniformArg → Except GLError Cmd
  | .supported v => .ok (.progUniform (encodeUniform v) shader location)
  | .unsupported _ => .error .unsupportedUniformType

/-- The command `set_uniform` records for a supported value; used to
build the main-program traces. -/
def uniformCmd (shader : Handle) (location : Nat) (v : UniformValue) : Cmd :=
  .progUniform (encodeUniform v) shader location

/-- The (program, location) pair a recorded uniform write targets. -/
def Cmd.uniformTarget : Cmd → Option (Handle × Nat)
  | .progUniform _ prog loc => some (prog, loc)
  | _ => none

/-! ## Shader pipeline creation (`validate_program` / `create_program`,
source lines 109-145)

The GL driver is modelled by `CompileEnv`: the link status and info log
that `glGetProgramiv(_, GL_LINK_STATUS)` / `glGetProgramInfoLog` report
for a stage program built from a given source text. -/

/-- Device-side shader compile results, keyed by source text. -/
structure CompileEnv where
  linkOk : String → Bool
  infoLog : String → String

/-- The diagnostic line `validate_program` writes to `std::clog`
(source line 121). -/
def shader_error_message (filename log : String) : String :=
  "shader " ++ filename ++ " contains error(s):\n\n" ++ log ++ "\n"

/-- `validate_program(shader, filename)`: marks the stage separable,
queries link status, and on failure logs the diagnostic and deletes the
shader object.  Returns the emitted log lines and GL commands.  It never
throws. -/
def validate_program (env : CompileEnv) (shader : Handle) (src filename : String) :
    List String × List Cmd :=
  if env.linkOk src then
    ([], [.programSeparable shader])
  else
    ([shader_error_message filename (env.infoLog src)],
     [.programSeparable shader, .deleteShaderObj shader])

/-- The body of `create_program` after both source files have been read:
build both stage programs, validate each, then build the pipeline and
attach both stages.  Stage handles are `h0` (vertex) and `h0+1`
(fragment); the pipeline is `h0+2`.  Returns
`((pipeline, vert, frag), log lines, commands)`. -/
def create_program_core (env : CompileEnv) (h0 : Nat)
    (vert_source vert_filepath frag_source frag_filepath : String) :
    (Handle × Handle × Handle) × List String × List Cmd :=
  let vert := h0
  let frag := h0 + 1
  let pipeline := h0 + 2
  let v := validate_program env vert vert_source vert_filepath
  let f := validate_program env frag frag_source frag_filepath
  ((pipeline, vert, frag),
   v.1 ++ f.1,
   [Cmd.createShaderProgram .vertex vert, Cmd.createShaderProgram .fragment frag]
     ++ v.2 ++ f.2
     ++ [Cmd.createProgramPipeline pipeline,
         Cmd.useProgramStages pipeline .vertex vert,
         Cmd.useProgramStages pipeline .fragment frag])

/-- `read_text_file`: returns the file contents, or throws
`fs::filesystem_error` when the path does not exist (source lines 26-36).
`files` is the file system contents. -/
def read_text_file (files : String → Option String) (filepath : String) :
    Except GLError String :=
  match files filepath with
  | some s => .ok s
  | none => .error (.fileNotFound filepath)

/-- `create_program(vert_filepath, frag_filepath)` (source lines 126-145):
reads both sources, then runs `create_program_core`.  The only exception
it can raise comes from `read_text_file`; compile and link failures are
logged and execution continues. -/
def create_program (env : CompileEnv) (files : String → Option String) (h0 : Nat)
    (vert_filepath frag_filepath : String) :
    Except GLError ((Handle × Handle × Handle) × List String × List Cmd) := do
  let vert_source ← read_text_file files vert_filepath
  let frag_source ← read_text_file files frag_filepath
  .ok (create_program_core env h0 vert_source vert_filepath frag_source frag_filepath)

/-! ## Vertex data, buffers and geometry
(`vertex_t`, `create_buffer`, `create_geometry`, source lines 38-107) -/

/-- `vertex_t`: position, color, normal, texcoord, in that byte order. -/
structure vertex_t where
  position : Vec3
  color : Vec3
  normal : Vec3
  texcoord : Vec2

/-- `sizeof(vertex_t)`: 3+3+3+2 floats at 4 bytes each. -/
def sizeof_vertex_t : Nat := 44

/-- `attrib_format_t` (source lines 46-52). -/
structure attrib_format_t where
  attrib_index : Nat
  size : Nat
  type : GLScalarType
  relative_offset : Nat

/-- The static types `type_to_size_enum` is instantiated at.  `other`
stands for any instantiation without an `if constexpr` branch. -/
inductive CppAttribType
  | float
  | int
  | uint
  | vec2
  | vec3
  | vec4
  | other

/-- `type_to_size_enum<T>()` (source lines 54-70): component count and
scalar type per supported `T`; unsupported `T` throws. -/
def type_to_size_enum : CppAttribType → Option (Nat × GLScalarType)
  | .float => some (1, .float)
  | .int => some (1, .int)
  | .uint => some (1, .uint)
  | .vec2 => some (2, .float)
  | .vec3 => some (3, .float)
  | .vec4 => some (4, .float)
  | .other => none

/-- `create_attrib_format<T>(attrib_index, relative_offset)`
(source lines 72-77). -/
def create_attrib_format (t : CppAttribType) (attrib_index relative_offset : Nat) :
    Option attrib_format_t :=
  (type_to_size_enum t).map fun se => ⟨attrib_index, se.1, se.2, relative_offset⟩

/-- `create_buffer<T>(buff)` (source lines 79-86): allocates immutable
storage of `sizeof(T) * buff.size()` bytes into a fresh buffer `name`. -/
def create_buffer (name : Handle) (elemSize count : Nat) : List Cmd :=
  [.createBuffer name (elemSize * count)]

/-- `create_geometry(vertices, indices, attrib_formats)`
(source lines 88-107), at the only instantiation the program uses
(`T = vertex_t`).  The index vector has C++ type
`std::vector<uint8_t>`, so each index is an unsigned 8-bit value; we
render that as `Fin 256`.  Buffer names: `vbo = h0`, `ibo = h0+1`,
`vao = h0+2`; returns `(vao, vbo, ibo)` plus the commands issued. -/
def create_geometry (h0 : Nat) (vertices : List vertex_t) (indices : List (Fin 256))
    (attrib_formats : List attrib_format_t) :
    (Handle × Handle × Handle) × List Cmd :=
  let vbo := h0
  let ibo := h0 + 1
  let vao := h0 + 2
  ((vao, vbo, ibo),
   create_buffer vbo sizeof_vertex_t vertices.length
     ++ create_buffer ibo 1 indices.length
     ++ [Cmd.createVertexArray vao,
         Cmd.vertexArrayVertexBuffer vao 0 vbo 0 sizeof_vertex_t,
         Cmd.vertexArrayElementBuffer vao ibo]
     ++ attrib_formats.flatMap fun fmt =>
          [Cmd.enableVertexArrayAttrib vao fmt.attrib_index,
           Cmd.vertexArrayAttribFormat vao fmt.attrib_index fmt.size fmt.type false fmt.relative_offset,
           Cmd.vertexArrayAttribBinding vao fmt.attrib_index 0])

/-! ## Texture factories (source lines 156-250) -/

/-- A decoded image as returned by `stbi_load`: the dimensions it writes
into `x` and `y`.  Pixel contents are irrelevant to every claim. -/
structure Image where
  width : Nat
  height : Nat

/-- `create_texture_2d(internal_format, format, width, height, data,
filter, repeat)` (source lines 156-174). -/
def create_texture_2d (tex : Handle) (internal : InternalFormat) (fmt : ExternalFormat)
    (width height : Nat) (hasData : Bool) (filter : TexFilter) : List Cmd :=
  [Cmd.createTexture2D tex,
   Cmd.textureStorage2D tex 1 internal width height,
   Cmd.texParameteri tex .minFilter (.filter filter),
   Cmd.texParameteri tex .magFilter (.filter filter),
   Cmd.texParameteri tex .wrapS .repeatWrap,
   Cmd.texParameteri tex .wrapT .repeatWrap,
   Cmd.texParameteri tex .wrapR .repeatWrap]
    ++ (if hasData then [Cmd.textureSubImage2D tex 0 0 0 width height fmt] else [])

/-- `create_texture_cube(internal_format, format, width, height, data)`
(source lines 176-192): one storage allocation, then one upload per face
index 0..5 (the fixed-trip-count face loop is unrolled; all six face
pointers are non-null in the one call site). -/
def create_texture_cube (tex : Handle) (internal : InternalFormat) (fmt : ExternalFormat)
    (width height : Nat) : List Cmd :=
  [Cmd.createTextureCubeMap tex,
   Cmd.textureStorage2D tex 1 internal width height,
   Cmd.textureSubImage3D tex 0 0 width height fmt,
   Cmd.textureSubImage3D tex 0 1 width height fmt,
   Cmd.textureSubImage3D tex 0 2 width height fmt,
   Cmd.textureSubImage3D tex 0 3 width height fmt,
   Cmd.textureSubImage3D tex 0 4 width height fmt,
   Cmd.textureSubImage3D tex 0 5 width height fmt]

/-- `stb_comp_t` values the program uses. -/
inductive StbComp
  | grey
  | greyAlpha
  | rgb
  | rgbAlpha

/-- The `switch (comp)` mapping to `(internal, external)` formats shared
by `create_texture_2d_from_file` and `create_texture_cube_from_file`
(source lines 206-215 and 227-236). -/
def comp_formats : StbComp → InternalFormat × ExternalFormat
  | .rgbAlpha => (.rgba8, .rgba)
  | .rgb => (.rgb8, .rgb)
  | .grey => (.r8, .red)
  | .greyAlpha => (.rg8, .rg)

/-- `create_texture_2d_from_file(filepath, comp)` (source lines 195-220)
after a successful decode of `img`. -/
def create_texture_2d_from_file (tex : Handle) (img : Image) (comp : StbComp) : List Cmd :=
  create_texture_2d tex (comp_formats comp).1 (comp_formats comp).2
    img.width img.height true .linear

/-- `create_texture_cube_from_file(filepath, comp)` (source lines
222-250).  The decode loop writes the dimensions of every face into the same
two locals `x` and `y`, so after the loop they hold the dimensions of
face 5 — the storage allocation and all six uploads use those. -/
def create_texture_cube_from_file (tex : Handle) (faces : Fin 6 → Image) (comp : StbComp) :
    List Cmd :=
  create_texture_cube tex (comp_formats comp).1 (comp_formats comp).2
    (faces 5).width (faces 5).height

/-! ## Framebuffer factory (`create_framebuffer`, source lines 252-280) -/

/-- `GL_COLOR_ATTACHMENT0`. -/
def GL_COLOR_ATTACHMENT0 : Nat := 0x8CE0

/-- The `draw_buffs` array in `create_framebuffer` has this fixed length
(`std::array<GLenum, 32>`, source line 262). -/
def draw_buffs_len : Nat := 32

/-- The writes `draw_buffs[i] = GL_COLOR_ATTACHMENT0 + i` performed by
the loop at source lines 263-266, as (index, value) pairs in loop
order.  The loop runs to `cols.size()` with no bounds check against the
array length. -/
def draw_buffs_writes : Nat → List (Nat × Nat)
  | 0 => []
  | n + 1 => draw_buffs_writes n ++ [(n, GL_COLOR_ATTACHMENT0 + n)]

/-- Device-side texture state needed by the completeness check: the
dimensions of each texture object. -/
structure FBEnv where
  texDims : Handle → Nat × Nat

/-- Modelled from the spec: the device-side framebuffer completeness
check performed by `glCheckNamedFramebufferStatus` (the GL driver is an
external collaborator).  Per spec §3, a framebuffer is complete when it
has at least one attachment and every attachment texture matches the
declared dimensions. -/
def framebuffer_complete (env : FBEnv) (cols : List Handle) (depth : Option Handle) : Prop :=
  cols ++ depth.toList ≠ [] ∧
    ∀ t ∈ cols ++ depth.toList, ∀ u ∈ cols ++ depth.toList, env.texDims t = env.texDims u

instance (env : FBEnv) (cols : List Handle) (depth : Option Handle) :
    Decidable (framebuffer_complete env cols depth) := by
  unfold framebuffer_complete
  exact inferInstance

/-- `create_framebuffer(cols, depth)` (source lines 252-280): attach the
color textures at `GL_COLOR_ATTACHMENT0 + i`, fill `draw_buffs` and
declare the first `cols.size()` entries as the draw-buffer set, attach
the depth texture when one is given (`depth != GL_NONE`), then check
completeness once and either return the framebuffer name or throw.
When `cols.size() > 32` the `draw_buffs` fill loop writes past the end
of the array — undefined behaviour, rendered as `none`. -/
def create_framebuffer (env : FBEnv) (fbo : Handle) (cols : List Handle)
    (depth : Option Handle) : Option (List Cmd × Except GLError Handle) :=
  if cols.length ≤ draw_buffs_len then
    some
      ([Cmd.createFramebuffer fbo]
         ++ (cols.enum.map fun p => Cmd.namedFramebufferTexture fbo (.color p.1) p.2)
         ++ [Cmd.namedFramebufferDrawBuffers fbo ((draw_buffs_writes cols.length).map Prod.snd)]
         ++ (match depth with
             | some d => [Cmd.namedFramebufferTexture fbo .depth d]
             | none => [])
         ++ [Cmd.checkFramebufferStatus fbo],
       if framebuffer_complete env cols depth then .ok fbo
       else .error .incompleteFramebuffer)
  else
    none

/-! ## The `main` program (source lines 462-787)

GL object names are drawn from one allocator in creation order, which
makes every object name distinct.  Startup creation order in `main`:
the three asset textures, the skybox cube texture, the five g-buffer
render-target textures, the two framebuffers, `vao_empty`, the cube and
quad geometry, and the two shader pipelines. -/

/-- Handle of `texture_cube_diffuse` (created first). -/
def texture_cube_diffuse : Handle := 1

/-- Handle of `texture_cube_specular`. -/
def texture_cube_specular : Handle := 2

/-- Handle of `texture_cube_normal`. -/
def texture_cube_normal : Handle := 3

/-- Handle of `texture_skybox`. -/
def texture_skybox : Handle := 4

/-- Handle of `texture_gbuffer_color`. -/
def texture_gbuffer_color : Handle := 5

/-- Handle of `texture_gbuffer_position`. -/
def texture_gbuffer_position : Handle := 6

/-- Handle of `texture_gbuffer_normal`. -/
def texture_gbuffer_normal : Handle := 7

/-- Handle of `texture_gbuffer_albedo`. -/
def texture_gbuffer_albedo : Handle := 8

/-- Handle of `texture_gbuffer_depth`. -/
def texture_gbuffer_depth : Handle := 9

/-- Handle of `fb_gbuffer`. -/
def fb_gbuffer : Handle := 10

/-- Handle of `fb_finalcolor`. -/
def fb_finalcolor : Handle := 11

/-- Handle of `vao_empty`. -/
def vao_empty : Handle := 12

/-- The cube mesh vertex list (source lines 515-546). -/
def vertices_cube : List vertex_t :=
  [⟨⟨-0.5, 0.5, -0.5⟩, ⟨1, 0, 0⟩, ⟨0, 0, -1⟩, ⟨0, 0⟩⟩,
   ⟨⟨0.5, 0.5, -0.5⟩, ⟨0, 1, 0⟩, ⟨0, 0, -1⟩, ⟨1, 0⟩⟩,
   ⟨⟨0.5, -0.5, -0.5⟩, ⟨0, 0, 1⟩, ⟨0, 0, -1⟩, ⟨1, 1⟩⟩,
   ⟨⟨-0.5, -0.5, -0.5⟩, ⟨1, 0, 1⟩, ⟨0, 0, -1⟩, ⟨0, 1⟩⟩,
   ⟨⟨0.5, 0.5, -0.5⟩, ⟨1, 0, 0⟩, ⟨1, 0, 0⟩, ⟨0, 0⟩⟩,
   ⟨⟨0.5, 0.5, 0.5⟩, ⟨0, 1, 0⟩, ⟨1, 0, 0⟩, ⟨1, 0⟩⟩,
   ⟨⟨0.5, -0.5, 0.5⟩, ⟨0, 0, 1⟩, ⟨1, 0, 0⟩, ⟨1, 1⟩⟩,
   ⟨⟨0.5, -0.5, -0.5⟩, ⟨1, 0, 1⟩, ⟨1, 0, 0⟩, ⟨0, 1⟩⟩,
   ⟨⟨0.5, 0.5, 0.5⟩, ⟨0, 1, 0⟩, ⟨0, 0, 1⟩, ⟨1, 0⟩⟩,
   ⟨⟨-0.5, 0.5, 0.5⟩, ⟨1, 0, 0⟩, ⟨0, 0, 1⟩, ⟨0, 0⟩⟩,
   ⟨⟨-0.5, -0.5, 0.5⟩, ⟨1, 0, 1⟩, ⟨0, 0, 1⟩, ⟨0, 1⟩⟩,
   ⟨⟨0.5, -0.5, 0.5⟩, ⟨0, 0, 1⟩, ⟨0, 0, 1⟩, ⟨1, 1⟩⟩,
   ⟨⟨-0.5, 0.5, 0.5⟩, ⟨0, 1, 0⟩, ⟨-1, 0, 0⟩, ⟨1, 0⟩⟩,
   ⟨⟨-0.5, 0.5, -0.5⟩, ⟨1, 0, 0⟩, ⟨-1, 0, 0⟩, ⟨0, 0⟩⟩,
   ⟨⟨-0.5, -0.5, -0.5⟩, ⟨1, 0, 1⟩, ⟨-1, 0, 0⟩, ⟨0, 1⟩⟩,
   ⟨⟨-0.5, -0.5, 0.5⟩, ⟨0, 0, 1⟩, ⟨-1, 0, 0⟩, ⟨1, 1⟩⟩,
   ⟨⟨-0.5, 0.5, 0.5⟩, ⟨1, 0, 0⟩, ⟨0, 1, 0⟩, ⟨0, 0⟩⟩,
   ⟨⟨0.5, 0.5, 0.5⟩, ⟨0, 1, 0⟩, ⟨0, 1, 0⟩, ⟨1, 0⟩⟩,
   ⟨⟨0.5, 0.5, -0.5⟩, ⟨0, 0, 1⟩, ⟨0, 1, 0⟩, ⟨1, 1⟩⟩,
   ⟨⟨-0.5, 0.5, -0.5⟩, ⟨1, 0, 1⟩, ⟨0, 1, 0⟩, ⟨0, 1⟩⟩,
   ⟨⟨0.5, -0.5, 0.5⟩, ⟨0, 1, 0⟩, ⟨0, -1, 0⟩, ⟨1, 0⟩⟩,
   ⟨⟨-0.5, -0.5, 0.5⟩, ⟨1, 0, 0⟩, ⟨0, -1, 0⟩, ⟨0, 0⟩⟩,
   ⟨⟨-0.5, -0.5, -0.5⟩, ⟨1, 0, 1⟩, ⟨0, -1, 0⟩, ⟨0, 1⟩⟩,
   ⟨⟨0.5, -0.5, -0.5⟩, ⟨0, 0, 1⟩, ⟨0, -1, 0⟩, ⟨1, 1⟩⟩]

/-- The quad mesh vertex list (source lines 548-554). -/
def vertices_quad : List vertex_t :=
  [⟨⟨-0.5, 0, 0.5⟩, ⟨1, 0, 0⟩, ⟨0, 1, 0⟩, ⟨0, 0⟩⟩,
   ⟨⟨0.5, 0, 0.5⟩, ⟨0, 1, 0⟩, ⟨0, 1, 0⟩, ⟨1, 0⟩⟩,
   ⟨⟨0.5, 0, -0.5⟩, ⟨0, 0, 1⟩, ⟨0, 1, 0⟩, ⟨1, 1⟩⟩,
   ⟨⟨-0.5, 0, -0.5⟩, ⟨1, 0, 1⟩, ⟨0, 1, 0⟩, ⟨0, 1⟩⟩]

/-- `indices_cube` (source lines 556-565): 36 8-bit indices. -/
def indices_cube : List (Fin 256) :=
  [0, 1, 2, 2, 3, 0,
   4, 5, 6, 6, 7, 4,
   8, 9, 10, 10, 11, 8,
   12, 13, 14, 14, 15, 12,
   16, 17, 18, 18, 19, 16,
   20, 21, 22, 22, 23, 20]

/-- `indices_quad` (source lines 567-570): 6 8-bit indices. -/
def indices_quad : List (Fin 256) := [0, 1, 2, 2, 3, 0]

/-- `vertex_format` (source lines 595-601), with `offsetof` values of
`vertex_t`: position 0, color 12, normal 24, texcoord 36. -/
def vertex_format : List attrib_format_t :=
  [create_attrib_format .vec3 0 0,
   create_attrib_format .vec3 1 12,
   create_attrib_format .vec3 2 24,
   create_attrib_format .vec2 3 36].reduceOption

/-- The cube geometry call
`create_geometry(vertices_cube, indices_cube, vertex_format)`,
allocating from 13: `vbo_cube = 13`, `ibo_cube = 14`, `vao_cube = 15`. -/
def cubeGeometry : (Handle × Handle × Handle) × List Cmd :=
  create_geometry 13 vertices_cube indices_cube vertex_format

/-- The quad geometry call, allocating from 16: `vbo_quad = 16`,
`ibo_quad = 17`, `vao_quad = 18`. -/
def quadGeometry : (Handle × Handle × Handle) × List Cmd :=
  create_geometry 16 vertices_quad indices_quad vertex_format

/-- Handle of `vao_cube`. -/
def vao_cube : Handle := cubeGeometry.1.1

/-- Handle of `vbo_cube`. -/
def vbo_cube : Handle := cubeGeometry.1.2.1

/-- Handle of `ibo_cube`. -/
def ibo_cube : Handle := cubeGeometry.1.2.2

/-- Handle of `vao_quad`. -/
def vao_quad : Handle := quadGeometry.1.1

/-- Handle of `vbo_quad`. -/
def vbo_quad : Handle := quadGeometry.1.2.1

/-- Handle of `ibo_quad`. -/
def ibo_quad : Handle := quadGeometry.1.2.2

/-- Handle of `vert_shader` (main.vert stage; allocation base 19). -/
def vert_shader : Handle := 19

/-- Handle of `frag_shader` (main.frag stage). -/
def frag_shader : Handle := 20

/-- Handle of the lighting pipeline `pr`. -/
def pr : Handle := 21

/-- Handle of `vert_shader_g` (gbuffer.vert stage; allocation base 22). -/
def vert_shader_g : Handle := 22

/-- Handle of `frag_shader_g` (gbuffer.frag stage). -/
def frag_shader_g : Handle := 23

/-- Handle of the geometry-pass pipeline `pr_g`. -/
def pr_g : Handle := 24

/-- Uniform slot constants (source lines 613-621). -/
def uniform_projection : Nat := 0

/-- `uniform_cam_pos = 0`. -/
def uniform_cam_pos : Nat := 0

/-- `uniform_cam_dir = 0`. -/
def uniform_cam_dir : Nat := 0

/-- `uniform_view = 1`. -/
def uniform_view : Nat := 1

/-- `uniform_fov = 1`. -/
def uniform_fov : Nat := 1

/-- `uniform_aspect = 2`. -/
def uniform_aspect : Nat := 2

/-- `uniform_modl = 2`. -/
def uniform_modl : Nat := 2

/-- `uniform_uvs_diff = 3`. -/
def uniform_uvs_diff : Nat := 3

/-- `window_width` (source line 464). -/
def window_width : Nat := 1920

/-- `window_height` (source line 465). -/
def window_height : Nat := 1080

/-- Per-frame values computed host-side before the GL calls of an
iteration (camera matrices from the key state, the orbit transforms).
The glm arithmetic producing them is an external library; the claims
only concern which uniform slots they are written to. -/
structure FrameState where
  view : Mat4
  modelCube : Mat4
  orbit0 : Mat4
  orbit1 : Mat4
  orbit2 : Mat4
  orbit3 : Mat4
  modelQuad : Mat4
  camPos : Vec3
  camDirInv : Mat3

/-- Everything `main` consumes from its collaborators: display
resolution, decoded assets, shader sources and the device compile
environment, the projection matrix computed by `glm::perspective`, the
`fov` constant, and the per-frame host state for each iteration of the
frame loop. -/
structure MainParams where
  screen_width : Nat
  screen_height : Nat
  diffuseImg : Image
  specularImg : Image
  normalImg : Image
  skyFaces : Fin 6 → Image
  envC : CompileEnv
  mainVertSrc : String
  mainFragSrc : String
  gVertSrc : String
  gFragSrc : String
  projection : Mat4
  fovValue : Rat
  frames : List FrameState

/-- Texture dimensions as the device records them after the texture
creation calls: the five g-buffer targets are screen-sized, the asset
textures have their decoded sizes. -/
def mainTexDims (p : MainParams) : Handle → Nat × Nat
  | 1 => (p.diffuseImg.width, p.diffuseImg.height)
  | 2 => (p.specularImg.width, p.specularImg.height)
  | 3 => (p.normalImg.width, p.normalImg.height)
  | 4 => ((p.skyFaces 5).width, (p.skyFaces 5).height)
  | 5 => (p.screen_width, p.screen_height)
  | 6 => (p.screen_width, p.screen_height)
  | 7 => (p.screen_width, p.screen_height)
  | 8 => (p.screen_width, p.screen_height)
  | 9 => (p.screen_width, p.screen_height)
  | _ => (0, 0)

/-- The device environment that the framebuffer creations of `main` run against. -/
def mainFBEnv (p : MainParams) : FBEnv := ⟨mainTexDims p⟩

/-- The color attachment list of the g-buffer (source line 591). -/
def gbuffer_attach_textures : List Handle :=
  [texture_gbuffer_position, texture_gbuffer_normal, texture_gbuffer_albedo]

/-- The `create_framebuffer` call building `fb_gbuffer`. -/
def fb_gbuffer_result (p : MainParams) : Option (List Cmd × Except GLError Handle) :=
  create_framebuffer (mainFBEnv p) fb_gbuffer gbuffer_attach_textures (some texture_gbuffer_depth)

/-- The `create_framebuffer` call building `fb_finalcolor`. -/
def fb_final_result (p : MainParams) : Option (List Cmd × Except GLError Handle) :=
  create_framebuffer (mainFBEnv p) fb_finalcolor [texture_gbuffer_color] none

/-- Commands of a framebuffer creation result. -/
def fbCmdsOf (r : Option (List Cmd × Except GLError Handle)) : List Cmd :=
  (r.getD ([], Except.error GLError.incompleteFramebuffer)).1

/-- The GL commands `main` issues before the frame loop (source lines
572-625), in program order.  Asset decoding and shader-file reading have
succeeded (otherwise `main` throws before any of the loop code below
runs); the decoded data and sources are supplied by `p`. -/
def setupCmds (p : MainParams) : List Cmd :=
  create_texture_2d_from_file texture_cube_diffuse p.diffuseImg .rgb
    ++ create_texture_2d_from_file texture_cube_specular p.specularImg .grey
    ++ create_texture_2d_from_file texture_cube_normal p.normalImg .rgb
    ++ create_texture_cube_from_file texture_skybox p.skyFaces .rgbAlpha
    ++ create_texture_2d texture_gbuffer_color .rgb8 .rgb p.screen_width p.screen_height false .nearest
    ++ create_texture_2d texture_gbuffer_position .rgb16f .rgb p.screen_width p.screen_height false .nearest
    ++ create_texture_2d texture_gbuffer_normal .rgb16f .rgb p.screen_width p.screen_height false .nearest
    ++ create_texture_2d texture_gbuffer_albedo .rgba16f .rgba p.screen_width p.screen_height false .nearest
    ++ create_texture_2d texture_gbuffer_depth .depth32 .depth p.screen_width p.screen_height false .nearest
    ++ fbCmdsOf (fb_gbuffer_result p)
    ++ fbCmdsOf (fb_final_result p)
    ++ [Cmd.createVertexArray vao_empty]
    ++ cubeGeometry.2
    ++ quadGeometry.2
    ++ (create_program_core p.envC 19 p.mainVertSrc ".\\shaders\\main.vert"
          p.mainFragSrc ".\\shaders\\main.frag").2.2
    ++ (create_program_core p.envC 22 p.gVertSrc ".\\shaders\\gbuffer.vert"
          p.gFragSrc ".\\shaders\\gbuffer.frag").2.2
    ++ [uniformCmd vert_shader_g uniform_projection (.m4 p.projection)]

/-- One orbit-loop iteration of the geometry pass (source lines
708-718): write the model matrix of the orbiting cube, then draw the cube. -/
def orbitIter (m : Mat4) : List Cmd :=
  [uniformCmd vert_shader_g uniform_modl (.m4 m),
   Cmd.drawElements .triangles indices_cube.length .u8]

/-- The GL commands of one frame-loop iteration (source lines 633-760),
in program order.  The event handling and camera arithmetic before line
678 issue no GL calls.  The four-iteration orbit loop is unrolled. -/
def frameCmds (p : MainParams) (st : FrameState) : List Cmd :=
  [uniformCmd vert_shader_g uniform_view (.m4 st.view),
   Cmd.viewport 0 0 p.screen_width p.screen_height,
   Cmd.clearColorFv fb_gbuffer 0 [0, 0, 0],
   Cmd.clearColorFv fb_gbuffer 1 [0, 0, 0],
   Cmd.clearColorFv fb_gbuffer 2 [0, 0, 0, 0],
   Cmd.clearDepthFv fb_gbuffer 1,
   Cmd.bindFramebuffer fb_gbuffer,
   Cmd.bindTextureUnit 0 texture_cube_diffuse,
   Cmd.bindTextureUnit 1 texture_cube_specular,
   Cmd.bindTextureUnit 2 texture_cube_normal,
   Cmd.bindProgramPipeline pr_g,
   Cmd.bindVertexArray vao_cube,
   uniformCmd vert_shader_g uniform_modl (.m4 st.modelCube),
   Cmd.drawElements .triangles indices_cube.length .u8]
    ++ orbitIter st.orbit0 ++ orbitIter st.orbit1 ++ orbitIter st.orbit2 ++ orbitIter st.orbit3
    ++ [Cmd.bindVertexArray vao_quad,
        uniformCmd vert_shader_g uniform_modl (.m4 st.modelQuad),
        Cmd.drawElements .triangles indices_quad.length .u8,
        Cmd.clearColorFv fb_finalcolor 0 [0, 0, 0],
        Cmd.clearDepthFv fb_finalcolor 1,
        Cmd.bindFramebuffer fb_finalcolor,
        Cmd.bindTextureUnit 0 texture_gbuffer_position,
        Cmd.bindTextureUnit 1 texture_gbuffer_normal,
        Cmd.bindTextureUnit 2 texture_gbuffer_albedo,
        Cmd.bindTextureUnit 3 texture_gbuffer_depth,
        Cmd.bindTextureUnit 4 texture_skybox,
        Cmd.bindProgramPipeline pr,
        Cmd.bindVertexArray vao_empty,
        uniformCmd frag_shader uniform_cam_pos (.v3 st.camPos),
        uniformCmd vert_shader uniform_cam_dir (.m3 st.camDirInv),
        uniformCmd vert_shader uniform_fov (.f1 p.fovValue),
        uniformCmd vert_shader uniform_aspect
          (.f1 ((p.screen_width : Rat) / (p.screen_height : Rat))),
        uniformCmd vert_shader uniform_uvs_diff
          (.v2 ⟨(p.screen_width : Rat) / (p.screen_width : Rat),
                (p.screen_height : Rat) / (p.screen_height : Rat)⟩),
        Cmd.drawArrays .triangles 0 6,
        Cmd.viewport 0 0 window_width window_height,
        Cmd.bindFramebuffer 0,
        Cmd.blitNamedFramebuffer fb_finalcolor 0 p.screen_width p.screen_height
          window_width window_height,
        Cmd.swapWindow]

/-- The frame loop: one `frameCmds` block per iteration. -/
def framesTrace (p : MainParams) : List FrameState → List Cmd
  | [] => []
  | st :: rest => frameCmds p st ++ framesTrace p rest

/-- Buffers deleted at shutdown (source lines 762-766), in order. -/
def deletedBuffers : List Handle := [vbo_cube, ibo_cube, vbo_quad, ibo_quad]

/-- Textures deleted at shutdown (source lines 767-772), in order. -/
def deletedTextures : List Handle :=
  [texture_cube_diffuse, texture_cube_specular, texture_cube_normal,
   texture_gbuffer_position, texture_gbuffer_albedo, texture_gbuffer_normal,
   texture_gbuffer_depth, texture_gbuffer_color, texture_skybox]

/-- Stage programs deleted at shutdown (source lines 773-776). -/
def deletedPrograms : List Handle := [vert_shader, frag_shader, vert_shader_g, frag_shader_g]

/-- Pipelines deleted at shutdown (source line 778). -/
def deletedPipelines : List Handle := [pr, pr_g]

/-- Vertex arrays deleted at shutdown (source line 779): only `vao_cube`
and `vao_empty` appear in the deletion list. -/
def deletedVertexArrays : List Handle := [vao_cube, vao_empty]

/-- The GL commands `main` issues after the frame loop exits
(source lines 762-782). -/
def shutdownCmds : List Cmd :=
  deletedBuffers.map Cmd.deleteBuffer
    ++ deletedTextures.map Cmd.deleteTexture
    ++ deletedPrograms.map Cmd.deleteProgram
    ++ deletedPipelines.map Cmd.deleteProgramPipeline
    ++ deletedVertexArrays.map Cmd.deleteVertexArray
    ++ [Cmd.deleteFramebuffer fb_gbuffer, Cmd.deleteFramebuffer fb_finalcolor]

/-- The complete GL command trace of a `main` run whose frame loop runs
once per entry of `p.frames`. -/
def programTrace (p : MainParams) : List Cmd :=
  setupCmds p ++ framesTrace p p.frames ++ shutdownCmds

/-! ## Trace predicates -/

/-- A write to the camera projection-matrix slot: stage `vert_shader_g`,
slot `uniform_projection`. -/
def isProjectionWrite : Cmd → Bool
  | .progUniform _ prog loc => prog == vert_shader_g && loc == uniform_projection
  | _ => false

/-- A write to the camera view-matrix slot: stage `vert_shader_g`,
slot `uniform_view`. -/
def isViewWrite : Cmd → Bool
  | .progUniform _ prog loc => prog == vert_shader_g && loc == uniform_view
  | _ => false

/-- A draw call of either kind. -/
def Cmd.isDraw : Cmd → Bool
  | .drawElements _ _ _ => true
  | .drawArrays _ _ _ => true
  | _ => false

/-- A `glDrawArrays` call. -/
def Cmd.isDrawArrays : Cmd → Bool
  | .drawArrays _ _ _ => true
  | _ => false

/-- An indexed draw whose index type is not `GL_UNSIGNED_BYTE`. -/
def isWideIndexDraw : Cmd → Bool
  | .drawElements _ _ .u8 => false
  | .drawElements _ _ _ => true
  | _ => false

/-- A `glBindVertexArray` call. -/
def Cmd.isBindVertexArray : Cmd → Bool
  | .bindVertexArray _ => true
  | _ => false

/-- A command that attaches a vertex or element buffer to `vao`. -/
def attachesBufferTo (vao : Handle) : Cmd → Bool
  | .vertexArrayVertexBuffer v _ _ _ _ => v == vao
  | .vertexArrayElementBuffer v _ => v == vao
  | _ => false

/-- A clear of color attachment `slot` of framebuffer `fbo` to an
all-zero (and non-empty) component vector. -/
def isZeroColorClear (fbo slot : Nat) : Cmd → Bool
  | .clearColorFv f s v => f == fbo && s == slot && !v.isEmpty && v.all (· == 0)
  | _ => false

/-- Creation of vertex array `vao`. -/
def isCreateVAO (vao : Handle) : Cmd → Bool
  | .createVertexArray n => n == vao
  | _ => false

/-- Any of the six deletion calls, applied to object name `h`. -/
def deletesHandle (h : Handle) : Cmd → Bool
  | .deleteBuffer n => n == h
  | .deleteTexture n => n == h
  | .deleteProgram n => n == h
  | .deleteProgramPipeline n => n == h
  | .deleteVertexArray n => n == h
  | .deleteFramebuffer n => n == h
  | _ => false

/-- The slot/texture pair of a color attachment command. -/
def colorAttachOf : Cmd → Option (Nat × Handle)
  | .namedFramebufferTexture _ (.color i) t => some (i, t)
  | _ => none

/-- The buffer list of a `glNamedFramebufferDrawBuffers` command. -/
def drawBuffsOf : Cmd → Option (List Nat)
  | .namedFramebufferDrawBuffers _ bs => some bs
  | _ => none

/-- A depth attachment command. -/
def isDepthAttach : Cmd → Bool
  | .namedFramebufferTexture _ .depth _ => true
  | _ => false

/-- A completeness check command. -/
def isStatusCheck : Cmd → Bool
  | .checkFramebufferStatus _ => true
  | _ => false

/-- A concrete device environment in which every texture has a different
width (so any two distinct attachments mismatch). -/
def exampleFBEnv : FBEnv := ⟨fun h => (h, 0)⟩

/-- A concrete compile environment in which every stage fails to link. -/
def exampleCompileEnv : CompileEnv := ⟨fun _ => false, fun _ => "diagnostic"⟩

/-- A concrete file system containing every path. -/
def exampleFiles : String → Option String := fun _ => some "broken shader source"

/-! ## Helper lemmas -/

/-- `validate_program` issues only separable-marking and shader-deletion
commands, so any predicate rejecting both counts zero over it. -/
lemma countP_validate_program (pred : Cmd → Bool) (env : CompileEnv) (sh : Handle)
    (src fn : String)
    (h2 : pred (Cmd.programSeparable sh) = false)
    (h3 : pred (Cmd.deleteShaderObj sh) = false) :
    List.countP pred (validate_program env sh src fn).2 = 0 := by
  unfold validate_program
  cases env.linkOk src <;> simp [List.countP_cons, h2, h3]

/-- A predicate rejecting every command kind `create_program_core` can
issue counts zero over its command list, whatever the compile results. -/
lemma countP_create_program_core (pred : Cmd → Bool) (env : CompileEnv) (h0 : Nat)
    (va vp fa fp : String)
    (h1 : ∀ k n, pred (Cmd.createShaderProgram k n) = false)
    (h2 : ∀ n, pred (Cmd.programSeparable n) = false)
    (h3 : ∀ n, pred (Cmd.deleteShaderObj n) = false)
    (h4 : ∀ n, pred (Cmd.createProgramPipeline n) = false)
    (h5 : ∀ q k n, pred (Cmd.useProgramStages q k n) = false) :
    List.countP pred (create_program_core env h0 va vp fa fp).2.2 = 0 := by
  unfold create_program_core
  simp [List.countP_append, List.countP_cons, h1, h2, h4, h5,
    countP_validate_program pred env _ _ _ (h2 _) (h3 _)]

set_option maxRecDepth 4000 in
/-- The g-buffer framebuffer creation succeeds (all four attachments are
screen-sized) and issues exactly these commands. -/
lemma fb_gbuffer_result_eq (p : MainParams) :
    fb_gbuffer_result p =
      some ([Cmd.createFramebuffer fb_gbuffer,
             Cmd.namedFramebufferTexture fb_gbuffer (.color 0) texture_gbuffer_position,
             Cmd.namedFramebufferTexture fb_gbuffer (.color 1) texture_gbuffer_normal,
             Cmd.namedFramebufferTexture fb_gbuffer (.color 2) texture_gbuffer_albedo,
             Cmd.namedFramebufferDrawBuffers fb_gbuffer
               [GL_COLOR_ATTACHMENT0, GL_COLOR_ATTACHMENT0 + 1, GL_COLOR_ATTACHMENT0 + 2],
             Cmd.namedFramebufferTexture fb_gbuffer .depth texture_gbuffer_depth,
             Cmd.checkFramebufferStatus fb_gbuffer],
            Except.ok fb_gbuffer) := by
  have hc : framebuffer_complete (mainFBEnv p) gbuffer_attach_textures
      (some texture_gbuffer_depth) := by
    constructor
    · simp [gbuffer_attach_textures]
    · intro t ht u hu
      fin_cases ht <;> (fin_cases hu <;> rfl)
  unfold fb_gbuffer_result create_framebuffer
  rw [if_pos (by decide : gbuffer_attach_textures.length ≤ draw_buffs_len), if_pos hc]
  rfl

set_option maxRecDepth 4000 in
/-- The final-color framebuffer creation succeeds and issues exactly
these commands. -/
lemma fb_final_result_eq (p : MainParams) :
    fb_final_result p =
      some ([Cmd.createFramebuffer fb_finalcolor,
             Cmd.namedFramebufferTexture fb_finalcolor (.color 0) texture_gbuffer_color,
             Cmd.namedFramebufferDrawBuffers fb_finalcolor [GL_COLOR_ATTACHMENT0],
             Cmd.checkFramebufferStatus fb_finalcolor],
            Except.ok fb_finalcolor) := by
  have hc : framebuffer_complete (mainFBEnv p) [texture_gbuffer_color] none := by
    constructor
    · simp
    · intro t ht u hu
      fin_cases ht
      fin_cases hu
      rfl
  unfold fb_final_result create_framebuffer
  rw [if_pos (by decide : ([texture_gbuffer_color] : List Handle).length ≤ draw_buffs_len),
    if_pos hc]
  rfl

set_option maxRecDepth 4000 in
/-- The startup command sequence contains exactly one write to the
projection-matrix uniform slot of the geometry-pass vertex stage. -/
lemma countP_setup_proj (p : MainParams) :
    List.countP isProjectionWrite (setupCmds p) = 1 := by
  unfold setupCmds
  rw [fb_gbuffer_result_eq, fb_final_result_eq]
  simp [List.countP_append, List.countP_cons,
    countP_create_program_core isProjectionWrite _ _ _ _ _ _
      (by intro k n; rfl) (by intro n; rfl) (by intro n; rfl) (by intro n; rfl)
      (by intro q k n; rfl),
    create_texture_2d_from_file, create_texture_2d, create_texture_cube_from_file,
    create_texture_cube, fbCmdsOf, cubeGeometry, quadGeometry, create_geometry,
    create_buffer, vertex_format, create_attrib_format, type_to_size_enum]
  rfl

set_option maxRecDepth 4000 in
/-- The startup command sequence writes the view-matrix uniform slot of
the geometry-pass vertex stage zero times. -/
lemma countP_setup_view (p : MainParams) :
    List.countP isViewWrite (setupCmds p) = 0 := by
  unfold setupCmds
  rw [fb_gbuffer_result_eq, fb_final_result_eq]
  simp [List.countP_append, List.countP_cons,
    countP_create_program_core isViewWrite _ _ _ _ _ _
      (by intro k n; rfl) (by intro n; rfl) (by intro n; rfl) (by intro n; rfl)
      (by intro q k n; rfl),
    create_texture_2d_from_file, create_texture_2d, create_texture_cube_from_file,
    create_texture_cube, fbCmdsOf, cubeGeometry, quadGeometry, create_geometry,
    create_buffer, vertex_format, create_attrib_format, type_to_size_enum]
  and_intros <;> rfl

set_option maxRecDepth 4000 in
/-- The startup command sequence issues no indexed draw at all, hence
none with a wider-than-8-bit index type. -/
lemma countP_setup_wide (p : MainParams) :
    List.countP isWideIndexDraw (setupCmds p) = 0 := by
  unfold setupCmds
  rw [fb_gbuffer_result_eq, fb_final_result_eq]
  simp [List.countP_append, List.countP_cons,
    countP_create_program_core isWideIndexDraw _ _ _ _ _ _
      (by intro k n; rfl) (by intro n; rfl) (by intro n; rfl) (by intro n; rfl)
      (by intro q k n; rfl),
    create_texture_2d_from_file, create_texture_2d, create_texture_cube_from_file,
    create_texture_cube, fbCmdsOf, cubeGeometry, quadGeometry, create_geometry,
    create_buffer, vertex_format, create_attrib_format, type_to_size_enum]
  and_intros <;> rfl

set_option maxRecDepth 4000 in
/-- The startup command sequence never attaches a buffer to `vao_empty`
(the only buffer attachments target `vao_cube` and `vao_quad`). -/
lemma countP_setup_attach_empty (p : MainParams) :
    List.countP (attachesBufferTo vao_empty) (setupCmds p) = 0 := by
  unfold setupCmds
  rw [fb_gbuffer_result_eq, fb_final_result_eq]
  simp [List.countP_append, List.countP_cons,
    countP_create_program_core (attachesBufferTo vao_empty) _ _ _ _ _ _
      (by intro k n; rfl) (by intro n; rfl) (by intro n; rfl) (by intro n; rfl)
      (by intro q k n; rfl),
    create_texture_2d_from_file, create_texture_2d, create_texture_cube_from_file,
    create_texture_cube, fbCmdsOf, cubeGeometry, quadGeometry, create_geometry,
    create_buffer, vertex_format, create_attrib_format, type_to_size_enum]
  and_intros <;> rfl

set_option maxRecDepth 4000 in
/-- The startup command sequence creates `vao_quad` exactly once. -/
lemma countP_setup_create_vao_quad (p : MainParams) :
    List.countP (isCreateVAO vao_quad) (setupCmds p) = 1 := by
  unfold setupCmds
  rw [fb_gbuffer_result_eq, fb_final_result_eq]
  simp [List.countP_append, List.countP_cons,
    countP_create_program_core (isCreateVAO vao_quad) _ _ _ _ _ _
      (by intro k n; rfl) (by intro n; rfl) (by intro n; rfl) (by intro n; rfl)
      (by intro q k n; rfl),
    create_texture_2d_from_file, create_texture_2d, create_texture_cube_from_file,
    create_texture_cube, fbCmdsOf, cubeGeometry, quadGeometry, create_geometry,
    create_buffer, vertex_format, create_attrib_format, type_to_size_enum]
  rfl

/-- Count over the frame loop when every iteration counts zero. -/
lemma countP_framesTrace_zero (pred : Cmd → Bool) (p : MainParams)
    (h : ∀ st, List.countP pred (frameCmds p st) = 0) :
    ∀ fs : List FrameState, List.countP pred (framesTrace p fs) = 0
  | [] => rfl
  | st :: rest => by
    simp [framesTrace, List.countP_append, h st,
      countP_framesTrace_zero pred p h rest]

/-- Count over the frame loop when every iteration counts one. -/
lemma countP_framesTrace_one (pred : Cmd → Bool) (p : MainParams)
    (h : ∀ st, List.countP pred (frameCmds p st) = 1) :
    ∀ fs : List FrameState, List.countP pred (framesTrace p fs) = fs.length
  | [] => rfl
  | st :: rest => by
    simp [framesTrace, List.countP_append, h st,
      countP_framesTrace_one pred p h rest]
    omega

/-- Membership characterisation of the `draw_buffs` fill-loop writes. -/
lemma draw_buffs_writes_mem (n : Nat) (w : Nat × Nat) :
    w ∈ draw_buffs_writes n ↔ w.1 < n ∧ w.2 = GL_COLOR_ATTACHMENT0 + w.1 := by
  induction n with
  | zero => simp [draw_buffs_writes]
  | succ m ih =>
    obtain ⟨a, b⟩ := w
    simp only [draw_buffs_writes, List.mem_append, List.mem_singleton, ih, Prod.mk.injEq]
    constructor
    · rintro (⟨h1, h2⟩ | ⟨rfl, rfl⟩)
      · exact ⟨by omega, h2⟩
      · exact ⟨by omega, rfl⟩
    · rintro ⟨h1, rfl⟩
      rcases Nat.lt_succ_iff_lt_or_eq.mp h1 with h | rfl
      · exact Or.inl ⟨h, rfl⟩
      · exact Or.inr ⟨rfl, rfl⟩

/-- The draw-buffer values of the fill loop are the successive color
attachment slots. -/
lemma draw_buffs_writes_values (n : Nat) :
    (draw_buffs_writes n).map Prod.snd =
      (List.range n).map fun i => GL_COLOR_ATTACHMENT0 + i := by
  induction n with
  | zero => rfl
  | succ m ih => simp [draw_buffs_writes, List.range_succ, ih]

/-! ## Claim theorems -/

/-- C6: for every (stage, slot, value) triple whose value has one of the
supported semantic types — scalar float/int/unsigned/double/bool, 2/3/4
float vectors, 2/3/4 int vectors, 2/3/4 unsigned vectors, quaternion,
3×3 and 4×4 matrices — `set_uniform` writes the value to exactly that
stage and slot; a quaternion is written through the 4-component float
vector call, matrices are written column-major with `transpose = GL_FALSE`;
any other argument type is rejected with an unsupported-uniform-type
error rather than silently ignored. -/
theorem C6_set_uniform_supported_types (shader : Handle) (location : Nat) :
    (∀ v : UniformValue,
      set_uniform shader location (.supported v) =
        .ok (Cmd.progUniform (encodeUniform v) shader location) ∧
      (Cmd.progUniform (encodeUniform v) shader location).uniformTarget =
        some (shader, location)) ∧
    (∀ q : Quat, encodeUniform (.quat q) = .uniform4fv ⟨q.x, q.y, q.z, q.w⟩) ∧
    (∀ m : Mat3, encodeUniform (.m3 m) = .uniformMatrix3fv false m) ∧
    (∀ m : Mat4, encodeUniform (.m4 m) = .uniformMatrix4fv false m) ∧
    (∀ typeName : String,
      set_uniform shader location (.unsupported typeName) =
        .error .unsupportedUniformType) :=
  ⟨fun _ => ⟨rfl, rfl⟩, fun _ => rfl, fun _ => rfl, fun _ => rfl, fun _ => rfl⟩

/-- C10: `create_texture_cube_from_file` allocates its single cube
storage with the dimensions of the *last* decoded face and uploads every
face with those same dimensions; its output depends only on the face-5
dimensions, so differing dimensions among the six faces are not
detected and produce no error. -/
theorem C10_cube_texture_uses_last_face_dims (tex : Handle) (faces : Fin 6 → Image)
    (comp : StbComp) :
    create_texture_cube_from_file tex faces comp =
      create_texture_cube_from_file tex (fun _ => faces 5) comp ∧
    Cmd.textureStorage2D tex 1 (comp_formats comp).1 (faces 5).width (faces 5).height ∈
      create_texture_cube_from_file tex faces comp ∧
    (∀ face : Fin 6,
      Cmd.textureSubImage3D tex 0 face.val (faces 5).width (faces 5).height
          (comp_formats comp).2 ∈
        create_texture_cube_from_file tex faces comp) := by
  refine ⟨rfl, ?_, ?_⟩
  · simp [create_texture_cube_from_file, create_texture_cube]
  · intro face
    fin_cases face <;> simp [create_texture_cube_from_file, create_texture_cube]

/-- C9: the `draw_buffs` draw-target array of `create_framebuffer` has
fixed length 32 and its fill loop has no bounds check: with at most 32
color textures every write lands at an index below 32, and with more
than 32 the loop writes at an out-of-range index (undefined behaviour,
`create_framebuffer` is undefined there), so a call implicitly requires
at most 32 color textures. -/
theorem C9_draw_buffs_implicit_limit (env : FBEnv) (fbo : Handle) (cols : List Handle)
    (depth : Option Handle) :
    (cols.length ≤ draw_buffs_len →
      (∀ w ∈ draw_buffs_writes cols.length, w.1 < draw_buffs_len) ∧
      (create_framebuffer env fbo cols depth).isSome = true) ∧
    (draw_buffs_len < cols.length →
      (∃ w ∈ draw_buffs_writes cols.length, draw_buffs_len ≤ w.1) ∧
      create_framebuffer env fbo cols depth = none) := by
  constructor
  · intro hlen
    constructor
    · intro w hw
      rw [draw_buffs_writes_mem] at hw
      omega
    · unfold create_framebuffer
      rw [if_pos hlen]
      rfl
  · intro hlen
    constructor
    · refine ⟨(draw_buffs_len, GL_COLOR_ATTACHMENT0 + draw_buffs_len), ?_, le_refl _⟩
      rw [draw_buffs_writes_mem]
      exact ⟨hlen, rfl⟩
    · unfold create_framebuffer
      rw [if_neg (by omega)]

/-- Witness for C9: with 3 color textures every `draw_buffs` write is in
bounds and creation is defined; with 33 color textures the fill loop
writes at index 32, past the end of the 32-entry array. -/
theorem C9_draw_buffs_implicit_limit_witness :
    ((∀ w ∈ draw_buffs_writes ([1, 2, 3] : List Handle).length, w.1 < draw_buffs_len) ∧
      (create_framebuffer exampleFBEnv 50 [1, 2, 3] none).isSome = true) ∧
    ((∃ w ∈ draw_buffs_writes (List.replicate 33 (0 : Handle)).length,
        draw_buffs_len ≤ w.1) ∧
      create_framebuffer exampleFBEnv 50 (List.replicate 33 0) none = none) :=
  ⟨(C9_draw_buffs_implicit_limit exampleFBEnv 50 [1, 2, 3] none).1 (by decide),
   (C9_draw_buffs_implicit_limit exampleFBEnv 50 (List.replicate 33 0) none).2 (by decide)⟩

/-- C3: for every color-texture list and optional depth texture (within
the 32-slot draw-buffer array, see C9), `create_framebuffer` attaches the
color textures at successive slots 0..N-1, declares exactly those N
slots as the draw-target set, attaches the depth texture exactly when
one is provided, checks completeness exactly once, and returns the
framebuffer handle when the framebuffer is complete while failing with
the incomplete-framebuffer exception otherwise — in particular whenever
two attachments have mismatched dimensions. -/
theorem C3_create_framebuffer_attach_and_check (env : FBEnv) (fbo : Handle)
    (cols : List Handle) (depth : Option Handle)
    (hlen : cols.length ≤ draw_buffs_len) :
    ∃ cmds res, create_framebuffer env fbo cols depth = some (cmds, res) ∧
      cmds.filterMap colorAttachOf = cols.enum ∧
      cmds.filterMap drawBuffsOf =
        [(List.range cols.length).map fun i => GL_COLOR_ATTACHMENT0 + i] ∧
      List.countP isDepthAttach cmds = (if depth.isSome then 1 else 0) ∧
      (∀ d, depth = some d → Cmd.namedFramebufferTexture fbo .depth d ∈ cmds) ∧
      List.countP isStatusCheck cmds = 1 ∧
      (framebuffer_complete env cols depth → res = .ok fbo) ∧
      (¬ framebuffer_complete env cols depth → res = .error .incompleteFramebuffer) ∧
      (∀ t u, t ∈ cols ++ depth.toList → u ∈ cols ++ depth.toList →
        env.texDims t ≠ env.texDims u → res = .error .incompleteFramebuffer) := by
  unfold create_framebuffer
  rw [if_pos hlen]
  have h1 : (colorAttachOf ∘ fun p : Nat × Handle =>
      Cmd.namedFramebufferTexture fbo (.color p.1) p.2) = some := funext fun p => rfl
  refine ⟨_, _, rfl, ?_, ?_, ?_, ?_, ?_, ?_, ?_, ?_⟩
  · simp only [List.filterMap_append, List.filterMap_map]
    rw [h1, List.filterMap_some]
    cases depth <;> simp [colorAttachOf]
  · simp [List.filterMap_append, List.filterMap_map, drawBuffsOf, draw_buffs_writes_values,
      Function.comp_def]
    cases depth <;> simp [drawBuffsOf]
  · simp [List.countP_append, List.countP_cons, List.countP_map, isDepthAttach,
      Function.comp_def]
    cases depth <;> simp [isDepthAttach]
  · intro d hd
    subst hd
    simp
  · simp [List.countP_append, List.countP_cons, List.countP_map, isStatusCheck,
      Function.comp_def]
    cases depth <;> simp [isStatusCheck]
  · intro h
    rw [if_pos h]
  · intro h
    rw [if_neg h]
  · intro t u ht hu hne
    have hni : ¬ framebuffer_complete env cols depth := by
      intro hcp
      exact hne (hcp.2 t ht u hu)
    rw [if_neg hni]

/-- Witness for C3: a two-color-attachment call in a device environment
where the two textures have different widths; the attach/draw-buffer
structure is as stated and the mismatch makes the creation fail with
the incomplete-framebuffer error. -/
theorem C3_create_framebuffer_attach_and_check_witness :
    ∃ cmds res, create_framebuffer exampleFBEnv 40 [1, 2] none = some (cmds, res) ∧
      cmds.filterMap colorAttachOf = ([1, 2] : List Handle).enum ∧
      cmds.filterMap drawBuffsOf =
        [(List.range ([1, 2] : List Handle).length).map fun i => GL_COLOR_ATTACHMENT0 + i] ∧
      List.countP isDepthAttach cmds = (if (none : Option Handle).isSome then 1 else 0) ∧
      (∀ d, (none : Option Handle) = some d →
        Cmd.namedFramebufferTexture 40 .depth d ∈ cmds) ∧
      List.countP isStatusCheck cmds = 1 ∧
      (framebuffer_complete exampleFBEnv [1, 2] none → res = .ok 40) ∧
      (¬ framebuffer_complete exampleFBEnv [1, 2] none →
        res = .error .incompleteFramebuffer) ∧
      (∀ t u, t ∈ ([1, 2] : List Handle) ++ (none : Option Handle).toList →
        u ∈ ([1, 2] : List Handle) ++ (none : Option Handle).toList →
        exampleFBEnv.texDims t ≠ exampleFBEnv.texDims u →
        res = .error .incompleteFramebuffer) :=
  C3_create_framebuffer_attach_and_check exampleFBEnv 40 [1, 2] none (by decide)

/-- C1: for every pair of shader sources (whatever the device reports
about them), `create_program` creates and validates the two stages
independently, returns the pipeline handle together with both stage
handles without throwing, binds both stages into the pipeline (so the
pipeline is usable afterwards), and when a stage fails to compile/link
it logs a message carrying the source file identifier of that stage and the
compiler diagnostic text. -/
theorem C1_create_program_failure_not_fatal (env : CompileEnv)
    (files : String → Option String) (h0 : Nat) (vert_filepath frag_filepath : String)
    (hv : (files vert_filepath).isSome = true)
    (hf : (files frag_filepath).isSome = true) :
    ∃ logs cmds,
      create_program env files h0 vert_filepath frag_filepath =
        .ok ((h0 + 2, h0, h0 + 1), logs, cmds) ∧
      Cmd.createShaderProgram .vertex h0 ∈ cmds ∧
      Cmd.createShaderProgram .fragment (h0 + 1) ∈ cmds ∧
      Cmd.useProgramStages (h0 + 2) .vertex h0 ∈ cmds ∧
      Cmd.useProgramStages (h0 + 2) .fragment (h0 + 1) ∈ cmds ∧
      (∀ src, files vert_filepath = some src → env.linkOk src = false →
        shader_error_message vert_filepath (env.infoLog src) ∈ logs) ∧
      (∀ src, files frag_filepath = some src → env.linkOk src = false →
        shader_error_message frag_filepath (env.infoLog src) ∈ logs) ∧
      (∀ fn lg, ∃ pre mid post,
        shader_error_message fn lg = pre ++ fn ++ mid ++ lg ++ post) := by
  rcases Option.isSome_iff_exists.mp hv with ⟨vs, hvs⟩
  rcases Option.isSome_iff_exists.mp hf with ⟨fs, hfs⟩
  refine ⟨(create_program_core env h0 vs vert_filepath fs frag_filepath).2.1,
    (create_program_core env h0 vs vert_filepath fs frag_filepath).2.2,
    ?_, ?_, ?_, ?_, ?_, ?_, ?_, ?_⟩
  · simp [create_program, read_text_file, hvs, hfs, create_program_core]
    rfl
  · simp [create_program_core]
  · simp [create_program_core]
  · simp [create_program_core]
  · simp [create_program_core]
  · intro src hsrc hbad
    rw [hvs] at hsrc
    cases hsrc
    simp [create_program_core, validate_program, hbad]
  · intro src hsrc hbad
    rw [hfs] at hsrc
    cases hsrc
    simp [create_program_core, validate_program, hbad]
  · intro fn lg
    exact ⟨"shader ", " contains error(s):\n\n", "\n", rfl⟩

/-- Witness for C1: in an environment where every stage fails to link
and every file exists, `create_program` still returns the pipeline and
both stage handles, with the failures logged. -/
theorem C1_create_program_failure_not_fatal_witness :
    ∃ logs cmds,
      create_program exampleCompileEnv exampleFiles 19 "a.vert" "a.frag" =
        .ok ((19 + 2, 19, 19 + 1), logs, cmds) ∧
      Cmd.createShaderProgram .vertex 19 ∈ cmds ∧
      Cmd.createShaderProgram .fragment (19 + 1) ∈ cmds ∧
      Cmd.useProgramStages (19 + 2) .vertex 19 ∈ cmds ∧
      Cmd.useProgramStages (19 + 2) .fragment (19 + 1) ∈ cmds ∧
      (∀ src, exampleFiles "a.vert" = some src → exampleCompileEnv.linkOk src = false →
        shader_error_message "a.vert" (exampleCompileEnv.infoLog src) ∈ logs) ∧
      (∀ src, exampleFiles "a.frag" = some src → exampleCompileEnv.linkOk src = false →
        shader_error_message "a.frag" (exampleCompileEnv.infoLog src) ∈ logs) ∧
      (∀ fn lg, ∃ pre mid post,
        shader_error_message fn lg = pre ++ fn ++ mid ++ lg ++ post) :=
  C1_create_program_failure_not_fatal exampleCompileEnv exampleFiles 19 "a.vert" "a.frag"
    (by rfl) (by rfl)

/-- C4: over a whole run with any number of frame iterations, the
projection-matrix uniform of the geometry-pass vertex stage is written
exactly once — during startup, before the frame loop — and never as part
of any frame iteration (the window is fixed, and no frame ever rewrites
it), while the view-matrix uniform is written exactly once in every
frame iteration, and that write falls in the prefix of the iteration
before its first draw call. -/
theorem C4_projection_once_view_per_frame (p : MainParams) :
    List.countP isProjectionWrite (programTrace p) = 1 ∧
    List.countP isProjectionWrite (setupCmds p) = 1 ∧
    (∀ st, List.countP isProjectionWrite (frameCmds p st) = 0) ∧
    List.countP isProjectionWrite shutdownCmds = 0 ∧
    (∀ st, List.countP isViewWrite (frameCmds p st) = 1) ∧
    (∀ st, List.countP isViewWrite
      ((frameCmds p st).takeWhile fun c => !(Cmd.isDraw c)) = 1) ∧
    List.countP isViewWrite (framesTrace p p.frames) = p.frames.length := by
  have hpf : ∀ st, List.countP isProjectionWrite (frameCmds p st) = 0 := fun st => rfl
  have hvf : ∀ st, List.countP isViewWrite (frameCmds p st) = 1 := fun st => rfl
  refine ⟨?_, countP_setup_proj p, hpf, rfl, hvf, fun st => rfl, ?_⟩
  · simp [programTrace, List.countP_append, countP_setup_proj p,
      countP_framesTrace_zero isProjectionWrite p hpf p.frames]
    decide
  · exact countP_framesTrace_one isViewWrite p hvf p.frames

/-- C5: `create_geometry` accepts indices only as unsigned 8-bit values
(one byte each in the index buffer it allocates, all values at most 255,
with the maximal value 255 accepted), and every indexed draw the program
ever issues uses the 8-bit index type — so a mesh needing 256 or more
distinct vertex indices cannot be expressed at this interface and would
require a wider index type. -/
theorem C5_eight_bit_index_buffers :
    (∀ (h0 : Nat) (verts : List vertex_t) (indices : List (Fin 256))
        (fmts : List attrib_format_t),
      (create_geometry h0 verts indices fmts).1 = (h0 + 2, h0, h0 + 1) ∧
      Cmd.createBuffer (h0 + 1) (1 * indices.length) ∈
        (create_geometry h0 verts indices fmts).2 ∧
      indices.all (fun i => decide (i.val ≤ 255)) = true) ∧
    ((create_geometry 0 [] [(255 : Fin 256)] []).1 = (2, 0, 1)) ∧
    (∀ p : MainParams, List.countP isWideIndexDraw (programTrace p) = 0) := by
  refine ⟨?_, rfl, ?_⟩
  · intro h0 verts indices fmts
    refine ⟨rfl, ?_, ?_⟩
    · simp [create_geometry, create_buffer]
    · rw [List.all_eq_true]
      intro i hi
      rw [decide_eq_true_eq]
      omega
  · intro p
    have hf : ∀ st, List.countP isWideIndexDraw (frameCmds p st) = 0 := fun st => rfl
    simp [programTrace, List.countP_append, countP_setup_wide p,
      countP_framesTrace_zero isWideIndexDraw p hf p.frames]
    decide

/-- C7: in every frame iteration there is a prefix, containing no draw
call, in which each of the three g-buffer color attachment slots is
cleared to an all-zero vector and its depth attachment is cleared to
the far value 1.0 — so the clears precede every draw of the frame. -/
theorem C7_gbuffer_cleared_before_draws (p : MainParams) (st : FrameState) :
    ∃ pre post, frameCmds p st = pre ++ post ∧
      pre.all (fun c => !(Cmd.isDraw c)) = true ∧
      pre.any (isZeroColorClear fb_gbuffer 0) = true ∧
      pre.any (isZeroColorClear fb_gbuffer 1) = true ∧
      pre.any (isZeroColorClear fb_gbuffer 2) = true ∧
      Cmd.clearDepthFv fb_gbuffer 1 ∈ pre ∧
      gbuffer_attach_textures.length = 3 := by
  refine ⟨(frameCmds p st).take 13, (frameCmds p st).drop 13, ?_, rfl, rfl, rfl, rfl, ?_, rfl⟩
  · rw [List.take_append_drop]
  · simp [frameCmds]

/-- C8: every frame iteration issues exactly one `glDrawArrays` call —
a 6-vertex (triangle-pair) full-screen draw — and before it binds the
g-buffer position, normal, albedo and depth textures and the
environment cube texture to texture units 0 through 4; the vertex array
bound at that draw is `vao_empty`, to which the program never attaches
a vertex or element buffer anywhere in its trace. -/
theorem C8_lighting_pass_binds_and_draws (p : MainParams) (st : FrameState) :
    List.countP Cmd.isDrawArrays (frameCmds p st) = 1 ∧
    List.countP (attachesBufferTo vao_empty) (programTrace p) = 0 ∧
    ∃ a b, frameCmds p st = a ++ Cmd.drawArrays .triangles 0 6 :: b ∧
      Cmd.bindTextureUnit 0 texture_gbuffer_position ∈ a ∧
      Cmd.bindTextureUnit 1 texture_gbuffer_normal ∈ a ∧
      Cmd.bindTextureUnit 2 texture_gbuffer_albedo ∈ a ∧
      Cmd.bindTextureUnit 3 texture_gbuffer_depth ∈ a ∧
      Cmd.bindTextureUnit 4 texture_skybox ∈ a ∧
      (a.filter Cmd.isBindVertexArray).getLast? = some (Cmd.bindVertexArray vao_empty) ∧
      List.countP Cmd.isDrawArrays b = 0 := by
  refine ⟨rfl, ?_, (frameCmds p st).take 40, (frameCmds p st).drop 41,
    rfl, ?_, ?_, ?_, ?_, ?_, rfl, rfl⟩
  · have hf : ∀ st, List.countP (attachesBufferTo vao_empty) (frameCmds p st) = 0 :=
      fun st => rfl
    simp [programTrace, List.countP_append, countP_setup_attach_empty p,
      countP_framesTrace_zero (attachesBufferTo vao_empty) p hf p.frames]
    decide
  · simp [frameCmds, orbitIter]
  · simp [frameCmds, orbitIter]
  · simp [frameCmds, orbitIter]
  · simp [frameCmds, orbitIter]
  · simp [frameCmds, orbitIter]

/-- C2 (code bug exhibit): `vao_quad` — the geometry binding returned by
the quad `create_geometry` call — is created exactly once during
startup and never during the frame loop, yet no deletion command of the
shutdown sequence targets it; the other two vertex arrays (`vao_cube`,
`vao_empty`) are each deleted exactly once.  The shutdown batch
therefore does not delete every geometry binding created by a
`create_geometry` call. -/
theorem C2_vao_quad_created_never_deleted (p : MainParams) :
    List.countP (isCreateVAO vao_quad) (setupCmds p) = 1 ∧
    List.countP (isCreateVAO vao_quad) (framesTrace p p.frames) = 0 ∧
    shutdownCmds.all (fun c => !(deletesHandle vao_quad c)) = true ∧
    List.countP (deletesHandle vao_cube) shutdownCmds = 1 ∧
    List.countP (deletesHandle vao_empty) shutdownCmds = 1 := by
  refine ⟨countP_setup_create_vao_quad p, ?_, rfl, rfl, rfl⟩
  exact countP_framesTrace_zero (isCreateVAO vao_quad) p (fun st => rfl) p.frames

end MGL
